import Mathlib

/-!
Verification of the cc1101 radio driver (src/cc1101/cc1101.py, src/cc1101/types.py).

The chip registers hold 8-bit values; we model them as Nat (Int where the
source's arithmetic can go negative) and the SPI bus as the list of data
passed to the transport.  Python floats are modelled as exact rationals;
decimal literals in the source are carried over verbatim as exact decimal
rationals.  The field-decomposition loops of the source subtract a strictly
positive amount from the loop variable on every iteration whose guard
requires the variable to be at least that amount, so each loop performs at
most 64 iterations from any 8-bit starting value; the Lean translations take
an explicit iteration budget of 256, which is therefore never exhausted and
the translations agree with the source loops on every input of interest.
-/

/-- Modulation enum from src/cc1101/types.py. -/
inductive Modulation : Type
  | FSK2
  | GFSK
  | ASK
  | FSK4
  | MSK
deriving DecidableEq, Repr

/-- Numeric values of the Modulation enum members. -/
def Modulation.value : Modulation → Nat
  | .FSK2 => 0
  | .GFSK => 1
  | .ASK => 3
  | .FSK4 => 4
  | .MSK => 7

/-- Config.SYNC1 register address. -/
def SYNC1 : Nat := 0x04

/-- Config.SYNC0 register address. -/
def SYNC0 : Nat := 0x05

/-- SPI._WRITE_BURST flag. -/
def WRITE_BURST : Nat := 0x40

/-- SPI._READ_SINGLE flag. -/
def READ_SINGLE : Nat := 0x80

/-- SPI._READ_BURST flag. -/
def READ_BURST : Nat := 0xC0

/-- Data that SPI.write_reg passes to the bus transport: the source computes
the arithmetic sum addr.value + value and hands that single datum to
spi_write (cc1101.py line 63). -/
def write_reg_data (addr value : Nat) : List Nat := [addr + value]

/-- Data that SPI.write_burst passes to the bus transport: the address byte
OR-ed with the burst-write flag, followed by the value bytes (line 69). -/
def write_burst_data (addr : Nat) (value : List Nat) : List Nat :=
  (addr ||| WRITE_BURST) :: value

/-- Outgoing bytes of SPI.read_reg: address OR-ed with the read-single flag,
then one dummy byte (line 75). -/
def read_reg_out (addr : Nat) : List Nat := [addr ||| READ_SINGLE, 0]

/-- Outgoing bytes of SPI.read_burst: address OR-ed with the read-burst flag,
then num dummy bytes (line 79). -/
def read_burst_out (addr : Nat) (num : Nat) : List Nat :=
  (addr ||| READ_BURST) :: List.replicate num 0

/-- Modelled from the spec (section 4.1): a single-register write puts on the
bus the unmodified address byte followed by the value byte. -/
def spec_single_write_frame (addr value : Nat) : List Nat := [addr, value]

/-- Loop body of CC1101._split_pktctrl1 (lines 127-142): greedy subtraction
with thresholds 32 (pqt), 8 (crc_af), 4 (app_st) while the value is at least
4; the final residue is adrchk. -/
def split_pktctrl1_go : Nat → Nat → Nat → Nat → Nat → Nat × Nat × Nat × Nat
  | 0, pqt, crc_af, app_st, val => (pqt, crc_af, app_st, val)
  | fuel + 1, pqt, crc_af, app_st, val =>
    if 4 ≤ val then
      if 32 ≤ val then split_pktctrl1_go fuel (pqt + 32) crc_af app_st (val - 32)
      else if 8 ≤ val then split_pktctrl1_go fuel pqt (crc_af + 8) app_st (val - 8)
      else split_pktctrl1_go fuel pqt crc_af (app_st + 4) (val - 4)
    else (pqt, crc_af, app_st, val)

/-- CC1101._split_pktctrl1 applied to a register value. -/
def split_pktctrl1 (val : Nat) : Nat × Nat × Nat × Nat :=
  split_pktctrl1_go 256 0 0 0 val

/-- Loop body of CC1101._split_pktctrl0 (lines 144-159): thresholds 64
(wdata), 16 (pktform), 4 (crc_en) while the value is at least 4; the final
residue is lenconf. -/
def split_pktctrl0_go : Nat → Nat → Nat → Nat → Nat → Nat × Nat × Nat × Nat
  | 0, wdata, pktform, crc_en, val => (wdata, pktform, crc_en, val)
  | fuel + 1, wdata, pktform, crc_en, val =>
    if 4 ≤ val then
      if 64 ≤ val then split_pktctrl0_go fuel (wdata + 64) pktform crc_en (val - 64)
      else if 16 ≤ val then split_pktctrl0_go fuel wdata (pktform + 16) crc_en (val - 16)
      else split_pktctrl0_go fuel wdata pktform (crc_en + 4) (val - 4)
    else (wdata, pktform, crc_en, val)

/-- CC1101._split_pktctrl0's decomposition applied to a register value.  Note
that the source reads this value from Config.PKTCTRL1, not PKTCTRL0
(line 145); that register selection is modelled in the RegFile functions
below. -/
def split_pktctrl0 (val : Nat) : Nat × Nat × Nat × Nat :=
  split_pktctrl0_go 256 0 0 0 val

/-- Loop body of CC1101._split_mdmcfg1 (lines 161-173): thresholds 128 (fec)
and 16 (pre) while the value is at least 16; the final residue is chsp. -/
def split_mdmcfg1_go : Nat → Nat → Nat → Nat → Nat × Nat × Nat
  | 0, fec, pre, val => (fec, pre, val)
  | fuel + 1, fec, pre, val =>
    if 16 ≤ val then
      if 128 ≤ val then split_mdmcfg1_go fuel (fec + 128) pre (val - 128)
      else split_mdmcfg1_go fuel fec (pre + 16) (val - 16)
    else (fec, pre, val)

/-- CC1101._split_mdmcfg1 applied to a register value; returns
(fec, pre, chsp). -/
def split_mdmcfg1 (val : Nat) : Nat × Nat × Nat :=
  split_mdmcfg1_go 256 0 0 val

/-- Loop body of CC1101._split_mdmcfg2 (lines 175-190).  The 128 branch
subtracts 182 (line 181, exactly as in the source), which can drive the loop
variable negative, so the value is an Int here; the final residue is
syncm. -/
def split_mdmcfg2_go : Nat → Int → Int → Int → Int → Int × Int × Int × Int
  | 0, dcoff, modfm, manch, val => (dcoff, modfm, manch, val)
  | fuel + 1, dcoff, modfm, manch, val =>
    if 8 ≤ val then
      if 128 ≤ val then split_mdmcfg2_go fuel (dcoff + 128) modfm manch (val - 182)
      else if 16 ≤ val then split_mdmcfg2_go fuel dcoff (modfm + 16) manch (val - 16)
      else split_mdmcfg2_go fuel dcoff modfm (manch + 8) (val - 8)
    else (dcoff, modfm, manch, val)

/-- CC1101._split_mdmcfg2 applied to a register value; returns
(dcoff, modfm, manch, syncm). -/
def split_mdmcfg2 (val : Int) : Int × Int × Int × Int :=
  split_mdmcfg2_go 256 0 0 0 val

/-- Loop body of CC1101._split_mdmcfg4 (lines 192-204): both the 64 and the
16 branch accumulate into the single rxbw component while the value is at
least 16; the final residue is dara. -/
def split_mdmcfg4_go : Nat → Nat → Nat → Nat × Nat
  | 0, rxbw, val => (rxbw, val)
  | fuel + 1, rxbw, val =>
    if 16 ≤ val then
      if 64 ≤ val then split_mdmcfg4_go fuel (rxbw + 64) (val - 64)
      else split_mdmcfg4_go fuel (rxbw + 16) (val - 16)
    else (rxbw, val)

/-- CC1101._split_mdmcfg4 applied to a register value; returns (rxbw, dara). -/
def split_mdmcfg4 (val : Nat) : Nat × Nat :=
  split_mdmcfg4_go 256 0 val

/-- The two packet-control registers of the chip, for the setters whose read
and write sides touch different registers. -/
structure RegFile where
  pktctrl0 : Nat
  pktctrl1 : Nat
deriving DecidableEq, Repr

/-- CC1101.set_white_data (lines 347-350): decomposes the fields via
_split_pktctrl0 — which reads PKTCTRL1 — and writes the recombined value to
PKTCTRL0. -/
def set_white_data (rf : RegFile) (enable : Bool) : RegFile :=
  let s := split_pktctrl0 rf.pktctrl1
  let wdata := if enable then 64 else 0
  { rf with pktctrl0 := wdata + s.2.1 + s.2.2.1 + s.2.2.2 }

/-- CC1101.get_white_data (lines 352-354): reads the wdata component of
_split_pktctrl0, which decomposes PKTCTRL1. -/
def get_white_data (rf : RegFile) : Bool :=
  (split_pktctrl0 rf.pktctrl1).1 != 0

/-- CC1101.set_pre (lines 432-436): clamps the value to 7, then writes
fec + value * 7 + chsp to MDMCFG1 (the source multiplies by 7, line 436). -/
def set_pre (mdmcfg1 : Nat) (value : Nat) : Nat :=
  let v := if 7 < value then 7 else value
  let s := split_mdmcfg1 mdmcfg1
  s.1 + v * 7 + s.2.2

/-- CC1101.get_pre (lines 438-440): the pre component of _split_mdmcfg1. -/
def get_pre (mdmcfg1 : Nat) : Nat :=
  (split_mdmcfg1 mdmcfg1).2.1

/-- CC1101.set_manchester (lines 404-407): recombines dcoff, modfm, the new
manch bit and syncm from _split_mdmcfg2 and writes the sum to MDMCFG2. -/
def set_manchester (mdmcfg2 : Int) (enable : Bool) : Int :=
  let s := split_mdmcfg2 mdmcfg2
  let manch : Int := if enable then 8 else 0
  s.1 + s.2.1 + manch + s.2.2.2

/-- CC1101.get_manchester (lines 409-411): the manch component of
_split_mdmcfg2, as a boolean. -/
def get_manchester (mdmcfg2 : Int) : Bool :=
  (split_mdmcfg2 mdmcfg2).2.2.1 != 0

/-- CC1101.set_crc_af (lines 318-321): recombines pqt, the new crc_af bit,
app_st and adrchk from _split_pktctrl1 and writes the sum to PKTCTRL1. -/
def set_crc_af (pktctrl1 : Nat) (enable : Bool) : Nat :=
  let s := split_pktctrl1 pktctrl1
  let crc_af := if enable then 8 else 0
  s.1 + crc_af + s.2.2.1 + s.2.2.2

/-- Python's round: round half to even, as used by set_channel_spacing and
set_data_rate. -/
def round_half_even (q : ℚ) : ℤ :=
  let f := ⌊q⌋
  let r := q - f
  if r < 1 / 2 then f
  else if 1 / 2 < r then f + 1
  else if f % 2 = 0 then f else f + 1

/-- The for-loop of CC1101.set_channel_spacing (lines 454-462): up to 5
iterations; once spacing is at most 50.682068, the mantissa is rounded out
and the loop breaks, otherwise the exponent counter is incremented and the
spacing halved.  Returns (chsp, mdmcfg0). -/
def chan_spacing_loop : Nat → ℚ → Nat → Nat × ℤ
  | 0, _, chsp => (chsp, 0)
  | n + 1, spacing, chsp =>
    if spacing ≤ 50.682068 then
      (chsp, round_half_even ((spacing - 25.390625) / 0.0991825))
    else chan_spacing_loop n (spacing / 2) (chsp + 1)

/-- The value CC1101.set_channel_spacing (lines 447-465) writes back to
MDMCFG1.  The source unpacks the (fec, pre, chsp) triple returned by
_split_mdmcfg1 as underscore, fec, pre (line 450), so its local fec is the
pre component and its local pre is the chsp component; the true fec
component is discarded. -/
def set_channel_spacing_mdmcfg1 (mdmcfg1 : Nat) (spacing : ℚ) : Nat :=
  let s := split_mdmcfg1 mdmcfg1
  let fec := s.2.1
  let pre := s.2.2
  let chsp := (chan_spacing_loop 5 spacing 0).1
  chsp + fec + pre

/-- CC1101.set_sync_word (lines 290-294): the Bool records whether the
out-of-range message was printed (the call continues either way), the list
is the register writes that are then performed unconditionally. -/
def set_sync_word (sh sl : Nat) : Bool × List (Nat × Nat) :=
  ((if 256 < sh ∨ 256 < sl then true else false), [(SYNC1, sh), (SYNC0, sl)])

/-- The polling loop of CC1101.send_data (lines 225-226): reads MARCSTATE
(the i-th read of the trace marc) and keeps polling until it equals 0x01;
the loop body contains nothing but a sleep — no deadline is consulted.
Returns the iteration at which the loop exits, or none if it has not exited
within the given number of iterations. -/
def send_poll : (Nat → Nat) → Nat → Nat → Option Nat
  | _, 0, _ => none
  | marc, fuel + 1, i => if marc i = 1 then some i else send_poll marc fuel (i + 1)

/-- The polling loop of CC1101.receive_data (lines 230-237): a while-True
loop that reads RXBYTES and proceeds only when its low 7 bits are non-zero;
the only other statement in the loop body is a sleep — no deadline is
consulted.  Returns the iteration at which the loop proceeds, or none if it
has not within the given number of iterations. -/
def receive_poll : (Nat → Nat) → Nat → Nat → Option Nat
  | _, 0, _ => none
  | rxb, fuel + 1, i =>
    if rxb i &&& 127 ≠ 0 then some i else receive_poll rxb fuel (i + 1)

/-- ReceivedPacket (cc1101.py lines 87-114); the field is the byte list the
constructor stores. -/
structure ReceivedPacket where
  raw : List Nat
deriving DecidableEq, Repr

/-- ReceivedPacket.data (line 114): everything after the first two stored
bytes. -/
def ReceivedPacket.data (p : ReceivedPacket) : List Nat := p.raw.drop 2

/-- ReceivedPacket.rssi (lines 94-102): decodes the byte at index 1 of the
stored data (the source indexes _data[1]; packets with fewer than two bytes
would raise IndexError, modelled by the default 0). -/
def ReceivedPacket.rssi (p : ReceivedPacket) : ℚ :=
  let rssi := p.raw.getD 1 0
  if 128 ≤ rssi then ((rssi : ℚ) - 256) / 2 - 74 else (rssi : ℚ) / 2 - 74

/-- ReceivedPacket.lqi (line 106). -/
def ReceivedPacket.lqi (p : ReceivedPacket) : Nat :=
  ((p.raw.getD 0 0) <<< 1 &&& 255) >>> 1

/-- CC1101.get_rssi (lines 540-547) as a function of the raw status byte. -/
def get_rssi (rssi : Nat) : ℚ :=
  if 128 ≤ rssi then ((rssi : ℚ) - 256) / 2 - 74 else (rssi : ℚ) / 2 - 74

/-- Modelled from the spec (section 4.6): rssi_dBm is (raw - 256) / 2 - 74
when raw is at least 128, and raw / 2 - 74 otherwise. -/
def spec_rssi_formula (raw : Nat) : ℚ :=
  if 128 ≤ raw then ((raw : ℚ) - 256) / 2 - 74 else (raw : ℚ) / 2 - 74

/-- One successful pass of CC1101.receive_data (lines 229-237) against a bus
whose RXBYTES register reads rxbytes and whose RX FIFO yields the bytes of
fifo in order: when the low 7 bits of rxbytes are non-zero, the first FIFO
byte is taken as the length and that many following bytes become the stored
packet data. -/
def receive_data_once (rxbytes : Nat) (fifo : List Nat) : Option ReceivedPacket :=
  if rxbytes &&& 127 ≠ 0 then
    let length := fifo.headD 0
    some ⟨(fifo.drop 1).take length⟩
  else none

/-- The power table literal of CC1101.set_dbm (line 271). -/
def pa_table_base : List Nat := [0x12, 0x0E, 0x1D, 0x34, 0x60, 0x84, 0xC8, 0xC0]

/-- CC1101.set_dbm (lines 270-278): the 8-entry table burst-written to the
PA-table pointer.  The source mutates entry 0 first, so in the FSK2 branch
the value copied into entry 1 is read from the already-mutated table. -/
def set_dbm (modulation : Modulation) (dbm_level : Fin 8) : List Nat :=
  let t := pa_table_base
  if modulation = Modulation.FSK2 then
    let t0 := t.set 0 0
    t0.set 1 (t0.getD dbm_level 0)
  else
    let t0 := t.set 0 (t.getD dbm_level 0)
    t0.set 1 0

/-- The constant 0.0003967285157216339 of set_base_frequency and
get_base_frequency (lines 281, 288), as an exact rational. -/
def freq_step : ℚ := 0.0003967285157216339

/-- Python int.to_bytes(length=3, byteorder=big): three big-endian bytes for
values below 2 to the 24, OverflowError (none) otherwise. -/
def nat_to_bytes3 (n : Nat) : Option (List Nat) :=
  if n < 16777216 then some [n / 65536, n / 256 % 256, n % 256] else none

/-- Python int.from_bytes(byteorder=big). -/
def nat_from_bytes3 (b : List Nat) : Nat :=
  b.foldl (fun acc x => acc * 256 + x) 0

/-- CC1101.set_base_frequency (lines 280-283): truncates frequency divided
by the freq_step constant to an integer (Python int(), which for the
non-negative frequencies at issue is the floor) and splits it into 3
big-endian bytes for the burst write to FREQ2. -/
def set_base_frequency (frequency : ℚ) : Option (List Nat) :=
  nat_to_bytes3 (Int.toNat ⌊frequency / freq_step⌋)

/-- CC1101.get_base_frequency (lines 285-288): recombines the 3 big-endian
bytes and multiplies by the freq_step constant. -/
def get_base_frequency (freq_bytes : List Nat) : ℚ :=
  (nat_from_bytes3 freq_bytes : ℚ) * freq_step

/-- Modelled from the spec (section 4.3 and claim C8): encode by rounding
frequency divided by (oscillator / 2 to the 16) — 26 / 2 ^ 16 in MHz — to
the nearest integer and splitting into 3 big-endian bytes. -/
def spec_freq_encode (frequency : ℚ) : Option (List Nat) :=
  nat_to_bytes3 (Int.toNat (round (frequency / (26 / 2 ^ 16))))

/-- Decimal parse of a single hexadecimal digit, as Python int() applied to
one character of a hex-formatted string: succeeds exactly on the digits 0-9
and raises ValueError (none) on the letters A-F. -/
def int_of_hex_digit (d : Nat) : Option Nat :=
  if d < 10 then some d else none

/-- CC1101.get_rx_bandwidth (lines 490-492): formats the rxbw component of
_split_mdmcfg4 as a two-character hexadecimal string, parses each character
back with a decimal int(), and evaluates 26e6 divided by
(8 * (4 + mantissa) * 2 ^ exponent); none models the ValueError raised when
a hex digit is not a decimal digit. -/
def get_rx_bandwidth (mdmcfg4 : Nat) : Option ℚ :=
  let rxbw := (split_mdmcfg4 mdmcfg4).1
  let d0 := rxbw / 16 % 16
  let d1 := rxbw % 16
  match int_of_hex_digit d1, int_of_hex_digit d0 with
  | some m, some e => some (26000000 / (8 * (4 + (m : ℚ)) * 2 ^ e))
  | _, _ => none

/-- C1: the setter/getter pairs of the composite registers do not round-trip.
With MDMCFG1 initially 0, set_pre(1) followed by get_pre() returns 0 (the
setter multiplies the field value by 7, landing it in the chsp bits); with
both packet-control registers 0, set_white_data(True) followed by
get_white_data() returns False (the decomposition reads PKTCTRL1 while the
setter writes PKTCTRL0); with MDMCFG2 initially 0x80, set_manchester(True)
followed by get_manchester() returns False (the decomposition subtracts 182
where its bit logic needs 128). -/
theorem C1_bug :
    get_pre (set_pre 0 1) = 0 ∧
    get_white_data (set_white_data ⟨0, 0⟩ true) = false ∧
    get_manchester (set_manchester 128 true) = false := by
  decide

/-- C2: packing one field does not preserve the others: with MDMCFG1 = 0x80
(FEC enabled) and the in-range spacing 50.0, set_channel_spacing writes
0x00 back to MDMCFG1 — the FEC bit is dropped, because the source unpacks
the (fec, pre, chsp) triple as (_, fec, pre).  (By contrast the PKTCTRL1
setters such as set_crc_af do preserve their sibling fields.) -/
theorem C2_bug : set_channel_spacing_mdmcfg1 128 50 = 0 := by
  have h : (chan_spacing_loop 5 50 0).1 = 0 := by norm_num [chan_spacing_loop]
  have hs : split_mdmcfg1 128 = (128, 0, 0) := by decide
  simp [set_channel_spacing_mdmcfg1, h, hs]

/-- C3: a single-register write does not put [addr, value] on the bus: the
source hands spi_write the arithmetic sum addr + value, a single datum, so
write_reg of address 0x04 with value 0x05 produces [9] rather than [4, 5];
the burst-write framing (address OR 0x40 followed by the values) is as
claimed. -/
theorem C3_bug :
    write_reg_data 4 5 = [9] ∧
    write_reg_data 4 5 ≠ spec_single_write_frame 4 5 ∧
    write_burst_data 4 [5] = [4 ||| WRITE_BURST, 5] := by
  decide

/-- C4: set_sync_word(300, 0) flags the out-of-range input (the source merely
prints an error message) and still performs both register writes, including
the out-of-range 300 to SYNC1 — no exception is raised and no write is
suppressed. -/
theorem C4_bug : set_sync_word 300 0 = (true, [(SYNC1, 300), (SYNC0, 0)]) := by
  decide

/-- C5: neither poll loop is bounded by a timeout.  Against a chip whose
MARCSTATE never reads 0x01 the transmit loop has not exited after any number
of polls, and against a chip whose RXBYTES always reads 0 the receive loop
has not exited after any number of polls: the loops contain no deadline
check, so no iteration budget makes them fail with a timeout. -/
theorem C5_bug :
    ∀ (fuel i : Nat),
      send_poll (fun _ => 13) fuel i = none ∧
      receive_poll (fun _ => 0) fuel i = none := by
  intro fuel
  induction fuel with
  | zero => intro i; exact ⟨rfl, rfl⟩
  | succ n ih => intro i; simpa [send_poll, receive_poll] using ih (i + 1)

/-- C6: receiving against a bus that reports RXBYTES 0x05 and FIFO bytes
[0x03, 0xAA, 0xBB, 0xCC] yields a packet whose data property is [0xCC], not
[0xAA, 0xBB, 0xCC]: ReceivedPacket unconditionally drops the first two
payload bytes as if they were leading status bytes. -/
theorem C6_bug :
    (receive_data_once 5 [3, 0xAA, 0xBB, 0xCC]).map ReceivedPacket.data
      = some [0xCC] ∧
    (receive_data_once 5 [3, 0xAA, 0xBB, 0xCC]).map ReceivedPacket.data
      ≠ some [0xAA, 0xBB, 0xCC] := by
  decide

/-- C7 counterexample: for the FSK-family modulation GFSK at power index 3
the claim puts the non-zero entry in slot 1 with slot 0 zero, but set_dbm
places 0x34 in slot 0 and 0 in slot 1. -/
theorem C7_counterexample :
    ¬ ((set_dbm Modulation.GFSK 3).getD 0 0 = 0 ∧
       (set_dbm Modulation.GFSK 3).getD 1 0 ≠ 0) := by
  decide

/-- C7 amended: only the 2-FSK modulation selects slot 1 (slot 0 zero); every
other modulation — GFSK, ASK, 4-FSK and MSK alike — selects slot 0 (slot 1
zero); and for 2-FSK at index 0 both slots are zero, because slot 0 is
zeroed before its value is copied into slot 1. -/
theorem C7_amended_theorem :
    ∀ (m : Modulation) (lvl : Fin 8),
      (set_dbm m lvl).getD 0 0
          = (if m = Modulation.FSK2 then 0 else pa_table_base.getD lvl 0) ∧
      (set_dbm m lvl).getD 1 0
          = (if m = Modulation.FSK2 then
               (if (lvl : Nat) = 0 then 0 else pa_table_base.getD lvl 0)
             else 0) := by
  intro m
  cases m <;> decide

/-- C8 counterexample: at the in-range frequency 433.1 MHz the bytes written
by set_base_frequency differ from the 3 big-endian bytes of
round(f / (oscillator / 2 ^ 16)): the source truncates with int() (register
1091678, bytes [16, 168, 94]) where the claim's encoding rounds to the
nearest integer (register 1091679, bytes [16, 168, 95]). -/
theorem C8_counterexample : set_base_frequency 433.1 ≠ spec_freq_encode 433.1 := by
  have h1 : ⌊(433.1 : ℚ) / freq_step⌋ = 1091678 := by
    rw [Int.floor_eq_iff]; norm_num [freq_step]
  have h2 : round ((433.1 : ℚ) / (26 / 2 ^ 16)) = 1091679 := by
    rw [round_eq, Int.floor_eq_iff]; norm_num
  simp only [set_base_frequency, spec_freq_encode, h1, h2]
  decide

/-- C8 amended: for every frequency f with 300 <= f <= 928 (MHz, covering the
chip's supported bands), encoding succeeds and get_base_frequency after
set_base_frequency(f) is within one step of the code's constant
0.0003967285157216339 MHz (the source's approximation of oscillator / 2^16)
below f: the encoding truncates f / freq_step toward zero rather than
rounding to the nearest integer, so the decoded value never exceeds f and
falls short of it by less than one freq_step. -/
theorem C8_theorem :
    ∀ f : ℚ, 300 ≤ f → f ≤ 928 →
      ∃ b, set_base_frequency f = some b ∧
        get_base_frequency b ≤ f ∧ f - freq_step < get_base_frequency b := by
  intro f h1 h2
  have hc : (0 : ℚ) < freq_step := by norm_num [freq_step]
  have hm0 : 0 ≤ ⌊f / freq_step⌋ :=
    Int.floor_nonneg.mpr (div_nonneg (by linarith) hc.le)
  have hmlt : ⌊f / freq_step⌋ < (16777216 : ℤ) := by
    rw [Int.floor_lt]
    push_cast
    rw [div_lt_iff₀ hc]
    have hb : (928 : ℚ) < 16777216 * freq_step := by norm_num [freq_step]
    linarith
  set n := Int.toNat ⌊f / freq_step⌋ with hn
  have hcast : (n : ℤ) = ⌊f / freq_step⌋ := Int.toNat_of_nonneg hm0
  have hnlt : n < 16777216 := by omega
  have hbytes : nat_from_bytes3 [n / 65536, n / 256 % 256, n % 256] = n := by
    simp [nat_from_bytes3]
    omega
  have hget :
      get_base_frequency [n / 65536, n / 256 % 256, n % 256]
        = (n : ℚ) * freq_step := by
    rw [get_base_frequency, hbytes]
  have hq : ((n : ℚ)) = ((⌊f / freq_step⌋ : ℤ) : ℚ) := by exact_mod_cast hcast
  refine ⟨[n / 65536, n / 256 % 256, n % 256], ?_, ?_, ?_⟩
  · simp [set_base_frequency, nat_to_bytes3, hnlt, hn]
  · rw [hget, hq]
    have hle : ((⌊f / freq_step⌋ : ℤ) : ℚ) ≤ f / freq_step := Int.floor_le _
    calc ((⌊f / freq_step⌋ : ℤ) : ℚ) * freq_step
        ≤ (f / freq_step) * freq_step := by
          exact mul_le_mul_of_nonneg_right hle hc.le
      _ = f := div_mul_cancel₀ f hc.ne'
  · rw [hget, hq]
    have hlt : f / freq_step < ((⌊f / freq_step⌋ : ℤ) : ℚ) + 1 :=
      Int.lt_floor_add_one _
    rw [div_lt_iff₀ hc] at hlt
    nlinarith [hlt]

/-- C8 witness: the amended round-trip bound instantiated at 433 MHz. -/
theorem C8_witness :
    ∃ b, set_base_frequency 433 = some b ∧
      get_base_frequency b ≤ 433 ∧ 433 - freq_step < get_base_frequency b :=
  C8_theorem 433 (by norm_num) (by norm_num)

/-- C9: the RSSI decode of a raw status byte matches the claimed formula —
(raw - 256) / 2 - 74 for raw at least 128, raw / 2 - 74 otherwise — both in
CC1101.get_rssi and in ReceivedPacket.rssi (whose raw byte sits at index 1
of the stored data), and in particular raw 0x50 decodes to -34 dBm and raw
0xD0 to -98 dBm. -/
theorem C9_theorem :
    (∀ raw : Fin 256, get_rssi raw.val = spec_rssi_formula raw.val) ∧
    (∀ raw : Fin 256,
      ReceivedPacket.rssi ⟨[0, raw.val]⟩ = spec_rssi_formula raw.val) ∧
    get_rssi 80 = -34 ∧ get_rssi 208 = -98 := by
  refine ⟨fun _ => rfl, fun _ => rfl, ?_, ?_⟩ <;> norm_num [get_rssi]

/-- C10 counterexample: at the register value 0xA0 (bandwidth exponent 2,
bandwidth mantissa 2) get_rx_bandwidth raises: the extracted rxbw bits
format as the hexadecimal string A0 and the decimal int() parse of the
character A fails with ValueError, modelled as none. -/
theorem C10_counterexample : get_rx_bandwidth 160 = none := by decide

set_option maxRecDepth 20000 in
/-- C10 amended: get_rx_bandwidth returns a bandwidth exactly for the
modem-config-4 values below 0xA0; whenever the combined
exponent-and-mantissa nibble is 10 or more (register value at least 0xA0),
the decimal parse of its hexadecimal digit fails and the getter raises
instead of returning a value. -/
theorem C10_amended_theorem :
    ∀ r : Fin 256, (get_rx_bandwidth r.val).isSome = true ↔ r.val < 160 := by
  decide
